import Mathlib

/-
Verification of the feature-matrix / label construction core of the
windermere-bloom-ml repository.

The embedding models:
  * src/windermere_project/features/build_feature_matrix.py
      (FeatureMatrixConfig, FeatureMatrixBuilder: _validate_inputs,
       _normalize_det, _filter_window, _make_config_fingerprint,
       _build_target_anchor, _extract_predictor_series,
       _merge_asof_backward, build)
  * src/windermere_project/features/feature_builder.py
      (FeatureBuilder._rolling_mean_features)
  * src/windermere_project/labels/label_builder.py
      (LabelConfig, LabelBuilder.build_from_feature_matrix)
  * src/windermere_project/clean/builder.py
      (CleanDatasetBuilder.filter_determinands)

Pandas dataframes are modelled as lists of typed rows.  Machine floats are
modelled as rationals; a pandas cell that is null / NaN or fails numeric
coercion is modelled as an `Option`-style outcome.  Timestamps are modelled
as a record carrying the calendar year (what `.dt.year` returns) and an
absolute time in seconds (what ordering, differencing and `total_seconds`
use).  `pd.merge_asof(..., direction="backward", allow_exact_matches=True)`
is modelled per anchor row as the last element of the time-sorted list of
same-site predictor observations at or before the anchor time, which is
exactly the pandas backward as-of match.
-/

universe u

variable {α : Type u}

/-- A determinand (analyte) identifier cell: pandas object columns hold the
identifier either as a string or as an integer. -/
inductive DetId where
  | str (s : String)
  | int (n : Int)
deriving DecidableEq, Repr

/-- Python `str(x)` on a determinand identifier. -/
def detToString : DetId → String
  | .str s => s
  | .int n => toString n

/-- Digit-string parsing: models `pd.to_numeric(..., errors="coerce")` /
`int(...)` on the (nonnegative integer) determinand identifiers the source
uses; a non-numeric string coerces to null (`none`). -/
def parseNatDigits (cs : List Char) : Option Nat :=
  if cs.isEmpty then none
  else if cs.all (fun c => c.isDigit) then
    some (cs.foldl (fun n c => 10 * n + (c.toNat - 48)) 0)
  else none

/-- Numeric coercion of a determinand identifier (`pd.to_numeric` on the
series side, `int(target)` on the target side of `_normalize_det`). -/
def toNumericDet : DetId → Option Int
  | .str s => (parseNatDigits s.toList).map (fun n => (n : Int))
  | .int n => some n

/-- A value cell, modelled by its `pd.to_numeric(..., errors="coerce")`
outcome: a numeric value, a non-numeric (string) value, or a null. -/
inductive Cell where
  | num (q : ℚ)
  | nonNumeric
  | null
deriving DecidableEq, Repr

/-- Numeric coercion `pd.to_numeric(..., errors="coerce")` of a value cell: null and
non-numeric cells both coerce to null (`none`). -/
def toNumericCell : Cell → Option ℚ
  | .num q => some q
  | .nonNumeric => none
  | .null => none

/-- A parsed timestamp: `year` is what `.dt.year` yields, `sec` the absolute
time in seconds used for ordering and `total_seconds` differences. -/
structure Timestamp where
  year : Int
  sec : Int
deriving DecidableEq, Repr

/-- A row of the clean long-format input table (`df_clean`).  `time` is the
`pd.to_datetime(..., errors="coerce")` outcome of the raw timestamp cell:
`none` models an unparseable timestamp (coerced to NaT). -/
structure RawRow where
  site : String
  time : Option Timestamp
  det : DetId
  value : Cell
  unit : String
deriving DecidableEq, Repr

/-- Model of `FeatureMatrixConfig` (build_feature_matrix.py), with the Python field
defaults. -/
structure FeatureMatrixConfig where
  datetime_col : String := "phenomenonTime"
  site_col : String := "samplingPoint.notation"
  determinand_col : String := "determinand.notation"
  value_col : String := "result"
  unit_col : String := "unit"
  determinand_cast : String := "str"
  window_start_year : Int := 2005
  window_end_year : Int := 2025
  target_determinand_id : DetId := .int 7887
  threshold_ugL : ℚ := 20
  predictor_ids : List DetId := [.int 348, .int 9686, .int 61]
  lookback_days : Int := 30
  add_missing_flags : Bool := true
  add_age_days : Bool := true
  add_seasonality : Bool := true
  add_days_since_last_chl : Bool := true
  output_dir : String := "data/features"
  snapshot_id : Option String := none
  feature_version : String := "FEAT_V1"
deriving DecidableEq, Repr

/-- Model of `_normalize_det` followed by the equality test the builder filters with:
cast `"str"` compares `str(x)` forms, cast `"int"` compares numeric
coercions (a non-numeric side never matches, like NaN equality in pandas),
any other cast value compares the cells as-is (mixed string/integer cells
compare unequal, as in pandas object equality). -/
def matchesDet (cast : String) (det target : DetId) : Bool :=
  if cast = "str" then detToString det == detToString target
  else if cast = "int" then
    match toNumericDet det, toNumericDet target with
    | some a, some b => a == b
    | _, _ => false
  else det == target

/-- A row surviving `_filter_window`: timestamp parsed, year inside the
configured window. -/
structure ObsRow where
  site : String
  t : Timestamp
  det : DetId
  value : Cell
  unit : String
deriving DecidableEq, Repr

/-- Model of `_filter_window`: parse timestamps, drop unparseable rows, keep rows
whose calendar year lies in `[window_start_year, window_end_year]`. -/
def filterWindow (cfg : FeatureMatrixConfig) (rows : List RawRow) : List ObsRow :=
  rows.filterMap fun r =>
    match r.time with
    | none => none
    | some t =>
      if cfg.window_start_year ≤ t.year ∧ t.year ≤ cfg.window_end_year then
        some ⟨r.site, t, r.det, r.value, r.unit⟩
      else none

/-- Sort key for `sort_values([site_col, datetime_col])`: the site string as
its list of code points (Python/pandas compare strings by code point), then
the absolute time. -/
def SortKey : Type := List ℕ × Int

/-- Code-point key of a site string. -/
def siteKey (s : String) : List ℕ := s.toList.map Char.toNat

/-- Lexicographic (site, time) order used by every `sort_values` call. -/
def keyLE (k1 k2 : SortKey) : Prop :=
  k1.1 < k2.1 ∨ (k1.1 = k2.1 ∧ k1.2 ≤ k2.2)

instance : DecidableRel keyLE := fun k1 k2 => by
  unfold keyLE; exact inferInstance

/-- The (site, time) order pulled back along a key function. -/
def byKeyLE (key : α → SortKey) (a b : α) : Prop := keyLE (key a) (key b)

instance (key : α → SortKey) : DecidableRel (byKeyLE key) := fun a b => by
  unfold byKeyLE; exact inferInstance

theorem keyLE_total (k1 k2 : SortKey) : keyLE k1 k2 ∨ keyLE k2 k1 := by
  rcases lt_trichotomy k1.1 k2.1 with h | h | h
  · exact Or.inl (Or.inl h)
  · rcases le_total k1.2 k2.2 with h2 | h2
    · exact Or.inl (Or.inr ⟨h, h2⟩)
    · exact Or.inr (Or.inr ⟨h.symm, h2⟩)
  · exact Or.inr (Or.inl h)

theorem keyLE_trans {k1 k2 k3 : SortKey} (h12 : keyLE k1 k2) (h23 : keyLE k2 k3) :
    keyLE k1 k3 := by
  rcases h12 with h12 | ⟨he12, hs12⟩
  · rcases h23 with h23 | ⟨he23, _⟩
    · exact Or.inl (h12.trans h23)
    · exact Or.inl (he23 ▸ h12)
  · rcases h23 with h23 | ⟨he23, hs23⟩
    · exact Or.inl (he12 ▸ h23)
    · exact Or.inr ⟨he12.trans he23, hs12.trans hs23⟩

instance (key : α → SortKey) : IsTotal α (byKeyLE key) :=
  ⟨fun a b => keyLE_total (key a) (key b)⟩

instance (key : α → SortKey) : IsTrans α (byKeyLE key) :=
  ⟨fun _ _ _ h12 h23 => keyLE_trans h12 h23⟩

/-- One extracted predictor observation (`_extract_predictor_series` row):
site, parsed timestamp, numeric value (nulls already dropped). -/
structure PredObs where
  site : String
  t : Timestamp
  value : ℚ
deriving DecidableEq, Repr

/-- Sort key of a predictor observation. -/
def predKey (p : PredObs) : SortKey := (siteKey p.site, p.t.sec)

/-- Sorting `sort_values` by (site, predictor time) on a predictor series. -/
def sortPredObs (l : List PredObs) : List PredObs :=
  List.insertionSort (byKeyLE predKey) l

/-- Model of `_extract_predictor_series`: window-filter, match the determinand under
the configured cast, coerce values to numeric and drop nulls, sort by
(site, time). -/
def extractPredictorSeries (cfg : FeatureMatrixConfig) (pid : DetId)
    (rows : List RawRow) : List PredObs :=
  let dfw := filterWindow cfg rows
  let d := dfw.filter fun r => matchesDet cfg.determinand_cast r.det pid
  let dn := d.filterMap fun r => (toNumericCell r.value).map fun v => PredObs.mk r.site r.t v
  sortPredObs dn

/-- One anchor row produced by `_build_target_anchor`: site, parsed
timestamp, numeric chlorophyll value, binary label `y`. -/
structure AnchorRow where
  site : String
  t : Timestamp
  chl : ℚ
  y : Int
deriving DecidableEq, Repr

/-- The target rows of `_build_target_anchor` before sorting: window-filter,
match the target determinand, coerce values to numeric and drop nulls. -/
def targetRows (cfg : FeatureMatrixConfig) (rows : List RawRow) :
    List (String × Timestamp × ℚ) :=
  ((filterWindow cfg rows).filter fun r =>
      matchesDet cfg.determinand_cast r.det cfg.target_determinand_id).filterMap
    fun r => (toNumericCell r.value).map fun v => (r.site, r.t, v)

/-- Sort key of a target row. -/
def targetKey (x : String × Timestamp × ℚ) : SortKey := (siteKey x.1, x.2.1.sec)

/-- Model of `_build_target_anchor`: target rows sorted by (site, time), labelled
with `y = (value > threshold)`. -/
def buildTargetAnchor (cfg : FeatureMatrixConfig) (rows : List RawRow) :
    List AnchorRow :=
  (List.insertionSort (byKeyLE targetKey) (targetRows cfg rows)).map
    fun x => ⟨x.1, x.2.1, x.2.2, if x.2.2 > cfg.threshold_ugL then 1 else 0⟩

/-- The backward as-of match of `pd.merge_asof(a, p, direction="backward",
allow_exact_matches=True, by=site_col)` for one anchor row: the last element
of the (site, time)-sorted predictor list among the same-site observations
at or before the anchor time, `none` when no such observation exists. -/
def mergeAsofMatch (a : AnchorRow) (preds : List PredObs) : Option PredObs :=
  ((sortPredObs preds).filter fun q =>
    q.site == a.site && decide (q.t.sec ≤ a.t.sec)).getLast?

/-- The age in days of a matched predictor observation:
`(anchor_time - pred_time).total_seconds() / 86400.0`. -/
def matchedAge (a : AnchorRow) (m : PredObs) : ℚ :=
  ((a.t.sec : ℚ) - (m.t.sec : ℚ)) / 86400

/-- The per-predictor columns `_merge_asof_backward` adds to one anchor row
(with `add_age_days` and `add_missing_flags` enabled, their defaults):
matched value, matched timestamp, age in days, missingness flag.  A missing
match leaves value/time/age null (the NaN age compares false against the
lookback, so the staleness mask does not fire) and the flag is
`isna(value)`. -/
structure PredCols where
  value : Option ℚ
  ptime : Option Timestamp
  age_days : Option ℚ
  is_missing : Int
deriving DecidableEq, Repr

/-- Model of `_merge_asof_backward` for one anchor row and one predictor series:
backward as-of match, age computation, lookback (staleness) enforcement,
missingness flag. -/
def joinPredictor (lookback : Int) (a : AnchorRow) (preds : List PredObs) :
    PredCols :=
  match mergeAsofMatch a preds with
  | none => ⟨none, none, none, 1⟩
  | some m =>
    if matchedAge a m > (lookback : ℚ) then ⟨none, none, none, 1⟩
    else ⟨some m.value, some m.t, some (matchedAge a m), 0⟩

/-- One row of the built feature matrix: the anchor columns plus, for each
configured predictor in order, its joined columns.  The seasonality /
elapsed-time columns and the constant governance columns of `build` add
further columns to the same rows and are not needed by the verified
properties. -/
structure FeatRow where
  site : String
  t : Timestamp
  chl : ℚ
  y : Int
  preds : List PredCols
deriving DecidableEq, Repr

/-- Sort key of a feature-matrix row. -/
def featKey (f : FeatRow) : SortKey := (siteKey f.site, f.t.sec)

/-- Model of `FeatureMatrixBuilder.build` along its successful path: build
the anchor set, as-of join each configured predictor onto it (each merge
keeps exactly one output row per anchor row, as `pd.merge_asof` does), then
re-sort deterministically by (site, time).  `pd.merge_asof` additionally
validates that each frame's on-key is globally monotonic and raises
otherwise; `buildMatrixE` below adds that error path. -/
def buildMatrix (cfg : FeatureMatrixConfig) (rows : List RawRow) : List FeatRow :=
  let anchors := buildTargetAnchor cfg rows
  let joined := anchors.map fun a =>
    FeatRow.mk a.site a.t a.chl a.y
      (cfg.predictor_ids.map fun pid =>
        joinPredictor cfg.lookback_days a (extractPredictorSeries cfg pid rows))
  List.insertionSort (byKeyLE featKey) joined

/-- The last element of a `Pairwise r` list is in the list and is an upper
bound of it under `r`. -/
theorem getLast?_pairwise_max {r : α → α → Prop} :
    ∀ {l : List α} {m : α}, l.Pairwise r → l.getLast? = some m →
      m ∈ l ∧ ∀ x ∈ l, x = m ∨ r x m := by
  intro l
  induction l with
  | nil => intro m _ h; simp at h
  | cons a t ih =>
    intro m hp hl
    cases t with
    | nil =>
      simp only [List.getLast?_singleton, Option.some.injEq] at hl
      subst hl
      refine ⟨List.mem_singleton_self a, ?_⟩
      intro x hx
      rw [List.mem_singleton] at hx
      exact Or.inl hx
    | cons b t2 =>
      rw [List.getLast?_cons_cons] at hl
      have hp2 := List.pairwise_cons.mp hp
      have hrec := ih hp2.2 hl
      refine ⟨List.mem_cons_of_mem a hrec.1, ?_⟩
      intro x hx
      rcases List.mem_cons.mp hx with hx | hx
      · subst hx
        exact Or.inr (hp2.1 m hrec.1)
      · exact hrec.2 x hx

/-- C1: for every anchor row and predictor series, the backward as-of match
is an observation at the same site with timestamp at or before the anchor's
timestamp, maximal among all such observations (an exact-timestamp match is
valid); when no predictor observation at the site has timestamp at or
before the anchor's, the match is `none` and the joined predictor value is
null rather than an error. -/
theorem asof_backward_join_correct (a : AnchorRow) (preds : List PredObs)
    (lookback : Int) :
    (mergeAsofMatch a preds = none ↔
      ∀ p ∈ preds, p.site = a.site → ¬ p.t.sec ≤ a.t.sec)
    ∧ (∀ m, mergeAsofMatch a preds = some m →
        m ∈ preds ∧ m.site = a.site ∧ m.t.sec ≤ a.t.sec ∧
          ∀ p ∈ preds, p.site = a.site → p.t.sec ≤ a.t.sec → p.t.sec ≤ m.t.sec)
    ∧ (mergeAsofMatch a preds = none →
        (joinPredictor lookback a preds).value = none) := by
  have hperm := List.perm_insertionSort (byKeyLE predKey) preds
  have hsorted : List.Pairwise (byKeyLE predKey) (sortPredObs preds) :=
    List.sorted_insertionSort (byKeyLE predKey) preds
  refine ⟨?_, ?_, ?_⟩
  · unfold mergeAsofMatch
    rw [List.getLast?_eq_none_iff, List.filter_eq_nil_iff]
    constructor
    · intro h p hp hsite hsec
      have hp2 : p ∈ sortPredObs preds := hperm.mem_iff.mpr hp
      have := h p hp2
      simp only [Bool.and_eq_true, beq_iff_eq, decide_eq_true_eq, not_and] at this
      exact this hsite hsec
    · intro h q hq
      have hq2 : q ∈ preds := hperm.mem_iff.mp hq
      simp only [Bool.and_eq_true, beq_iff_eq, decide_eq_true_eq, not_and]
      exact h q hq2
  · intro m hm
    unfold mergeAsofMatch at hm
    have hfil : List.Pairwise (byKeyLE predKey)
        ((sortPredObs preds).filter fun q =>
          q.site == a.site && decide (q.t.sec ≤ a.t.sec)) :=
      List.Pairwise.filter _ hsorted
    obtain ⟨hmem, hmax⟩ := getLast?_pairwise_max hfil hm
    rw [List.mem_filter] at hmem
    obtain ⟨hmemS, hpred⟩ := hmem
    simp only [Bool.and_eq_true, beq_iff_eq, decide_eq_true_eq] at hpred
    refine ⟨hperm.mem_iff.mp hmemS, hpred.1, hpred.2, ?_⟩
    intro p hp hsite hsec
    have hpF : p ∈ (sortPredObs preds).filter fun q =>
        q.site == a.site && decide (q.t.sec ≤ a.t.sec) := by
      rw [List.mem_filter]
      refine ⟨hperm.mem_iff.mpr hp, ?_⟩
      simp only [Bool.and_eq_true, beq_iff_eq, decide_eq_true_eq]
      exact ⟨hsite, hsec⟩
    rcases hmax p hpF with h | h
    · subst h; exact le_refl _
    · simp only [byKeyLE, keyLE, predKey] at h
      rcases h with h | ⟨_, hle⟩
      · rw [hsite, hpred.1] at h
        exact absurd h (lt_irrefl _)
      · exact hle
  · intro h
    simp [joinPredictor, h]

/-- Witness for C1 at a concrete anchor and a one-observation predictor
series. -/
theorem asof_backward_join_correct_witness :
    (mergeAsofMatch ⟨"A", ⟨2010, 86400⟩, 5, 0⟩ [⟨"A", ⟨2010, 100⟩, 3⟩] =
      some ⟨"A", ⟨2010, 100⟩, 3⟩) ∧
    ((⟨"A", ⟨2010, 100⟩, 3⟩ : PredObs) ∈ ([⟨"A", ⟨2010, 100⟩, 3⟩] : List PredObs) ∧
      (⟨"A", ⟨2010, 100⟩, 3⟩ : PredObs).site = "A" ∧
      (⟨"A", ⟨2010, 100⟩, 3⟩ : PredObs).t.sec ≤ (86400 : Int) ∧
      ∀ p ∈ ([⟨"A", ⟨2010, 100⟩, 3⟩] : List PredObs), p.site = "A" →
        p.t.sec ≤ (86400 : Int) → p.t.sec ≤ (100 : Int)) :=
  ⟨by decide,
   (asof_backward_join_correct ⟨"A", ⟨2010, 86400⟩, 5, 0⟩
      [⟨"A", ⟨2010, 100⟩, 3⟩] 30).2.1 ⟨"A", ⟨2010, 100⟩, 3⟩ (by decide)⟩

/-- Per-join statement of the lookback / missingness invariants of
`_merge_asof_backward`. -/
theorem joinPredictor_invariants (lookback : Int) (a : AnchorRow)
    (preds : List PredObs) :
    (∀ m, mergeAsofMatch a preds = some m → matchedAge a m > (lookback : ℚ) →
       (joinPredictor lookback a preds).value = none ∧
       (joinPredictor lookback a preds).ptime = none ∧
       (joinPredictor lookback a preds).age_days = none ∧
       (joinPredictor lookback a preds).is_missing = 1)
    ∧ ((joinPredictor lookback a preds).is_missing = 1 ↔
        (joinPredictor lookback a preds).value = none)
    ∧ (∀ v, (joinPredictor lookback a preds).value = some v →
        ∃ g, (joinPredictor lookback a preds).age_days = some g ∧
          g ≤ (lookback : ℚ)) := by
  cases hM : mergeAsofMatch a preds with
  | none =>
    refine ⟨?_, ?_, ?_⟩
    · intro m hm; simp at hm
    · simp [joinPredictor, hM]
    · intro v hv; simp [joinPredictor, hM] at hv
  | some m =>
    by_cases hAge : matchedAge a m > (lookback : ℚ)
    · refine ⟨?_, ?_, ?_⟩
      · intro m2 hm2 _
        have hmm := Option.some.inj hm2
        subst hmm
        simp [joinPredictor, hM, hAge]
      · simp [joinPredictor, hM, hAge]
      · intro v hv; simp [joinPredictor, hM, hAge] at hv
    · refine ⟨?_, ?_, ?_⟩
      · intro m2 hm2 hage2
        have hmm := Option.some.inj hm2
        subst hmm
        exact absurd hage2 hAge
      · simp [joinPredictor, hM, hAge]
      · intro v hv
        refine ⟨matchedAge a m, ?_, not_lt.mp hAge⟩
        simp [joinPredictor, hM, hAge]

/-- C2: the staleness rule and missingness-flag invariants of the built
per-predictor columns: a match older than `lookback_days` is nulled out
entirely with flag 1, the flag is 1 exactly when the value is null, and a
non-null value always has age at most `lookback_days`. -/
theorem lookback_staleness_invariants (lookback : Int) (a : AnchorRow)
    (preds : List PredObs) :
    (∀ m, mergeAsofMatch a preds = some m → matchedAge a m > (lookback : ℚ) →
       (joinPredictor lookback a preds).value = none ∧
       (joinPredictor lookback a preds).ptime = none ∧
       (joinPredictor lookback a preds).age_days = none ∧
       (joinPredictor lookback a preds).is_missing = 1)
    ∧ ((joinPredictor lookback a preds).is_missing = 1 ↔
        (joinPredictor lookback a preds).value = none)
    ∧ (∀ v, (joinPredictor lookback a preds).value = some v →
        ∃ g, (joinPredictor lookback a preds).age_days = some g ∧
          g ≤ (lookback : ℚ)) :=
  joinPredictor_invariants lookback a preds

/-- Witness for C2 at a concrete stale match: predictor observation 31 days
(2678400 seconds) before the anchor, lookback 30 days. -/
theorem lookback_staleness_invariants_witness :
    mergeAsofMatch ⟨"A", ⟨2010, 2678400⟩, 5, 0⟩ [⟨"A", ⟨2010, 0⟩, 3⟩] =
      some ⟨"A", ⟨2010, 0⟩, 3⟩ ∧
    matchedAge ⟨"A", ⟨2010, 2678400⟩, 5, 0⟩ ⟨"A", ⟨2010, 0⟩, 3⟩ > ((30 : Int) : ℚ) ∧
    ((joinPredictor 30 ⟨"A", ⟨2010, 2678400⟩, 5, 0⟩ [⟨"A", ⟨2010, 0⟩, 3⟩]).value = none ∧
     (joinPredictor 30 ⟨"A", ⟨2010, 2678400⟩, 5, 0⟩ [⟨"A", ⟨2010, 0⟩, 3⟩]).ptime = none ∧
     (joinPredictor 30 ⟨"A", ⟨2010, 2678400⟩, 5, 0⟩ [⟨"A", ⟨2010, 0⟩, 3⟩]).age_days = none ∧
     (joinPredictor 30 ⟨"A", ⟨2010, 2678400⟩, 5, 0⟩ [⟨"A", ⟨2010, 0⟩, 3⟩]).is_missing = 1) :=
  ⟨by decide, by norm_num [matchedAge],
   (lookback_staleness_invariants 30 ⟨"A", ⟨2010, 2678400⟩, 5, 0⟩
      [⟨"A", ⟨2010, 0⟩, 3⟩]).1 ⟨"A", ⟨2010, 0⟩, 3⟩ (by decide)
     (by norm_num [matchedAge])⟩

/-- Pandas `Series.shift(1)` on a numeric series: position 0 becomes NaN (`none`),
position `i` becomes the value at `i - 1`, the last value drops off (the
length is preserved). -/
def shift1 (s : List ℚ) : List (Option ℚ) :=
  ((none : Option ℚ) :: s.map some).take s.length

/-- Pandas `.rolling(window=w, min_periods=1).mean()` over an option-valued series:
at each position the window holds the `w` positions ending there; NaN
entries are skipped, the mean is over the non-NaN entries, and the result
is NaN (`none`) only when no non-NaN entry is in the window. -/
def rollingMeanMin1 (xs : List (Option ℚ)) (w : ℕ) : List (Option ℚ) :=
  (List.range xs.length).map fun t =>
    let vals := ((xs.take (t + 1)).drop (t + 1 - w)).filterMap id
    if vals.length = 0 then none else some (vals.sum / (vals.length : ℚ))

/-- Model of `FeatureBuilder._rolling_mean_features` for one window `w`:
`s.shift(1).rolling(window=w, min_periods=1).mean()` — shift before roll. -/
def rollMeanFeature (s : List ℚ) (w : ℕ) : List (Option ℚ) :=
  rollingMeanMin1 (shift1 s) w

theorem length_shift1 (s : List ℚ) : (shift1 s).length = s.length := by
  simp [shift1]

theorem filterMap_id_take_drop_map (s : List ℚ) (k d : ℕ) :
    ((((s.map some).take k).drop d).filterMap id) = (s.take k).drop d := by
  rw [← List.map_take, ← List.map_drop, List.filterMap_map]
  simp [Function.comp_def]

/-- The non-NaN entries of the shifted window at position `t` are exactly
the raw values at positions `t - w, ..., t - 1`. -/
theorem shift1_window (s : List ℚ) (w t : ℕ) (ht : t < s.length) :
    (((shift1 s).take (t + 1)).drop (t + 1 - w)).filterMap id
      = (s.take t).drop (t - w) := by
  unfold shift1
  rw [List.take_take]
  have hmin : (t + 1) ⊓ s.length = t + 1 := by
    rw [inf_eq_min]; omega
  rw [hmin, List.take_succ_cons]
  rcases Nat.lt_or_ge t w with hcase | hcase
  · have h1 : t + 1 - w = 0 := by omega
    have h2 : t - w = 0 := by omega
    rw [h1, h2, List.drop_zero, List.drop_zero, List.filterMap_cons]
    exact filterMap_id_take_drop_map s t 0 |>.trans (by rw [List.drop_zero])
  · have h1 : t + 1 - w = (t - w) + 1 := by omega
    rw [h1, List.drop_succ_cons]
    exact filterMap_id_take_drop_map s t (t - w)

/-- Core computation of the shifted rolling mean at a position `t ≥ 1`: it
is the mean of the raw values at positions `t - w, ..., t - 1`. -/
theorem rollMeanFeature_getElem (s : List ℚ) (w t : ℕ) (hw : 1 ≤ w)
    (ht1 : 1 ≤ t) (ht : t < s.length) :
    (rollMeanFeature s w)[t]? =
      some (some (((s.take t).drop (t - w)).sum /
        ((((s.take t).drop (t - w)).length : ℚ)))) ∧
    ((s.take t).drop (t - w)).length = min t w ∧
    (s.take t).drop (t - w) ≠ [] := by
  have hwin := shift1_window s w t ht
  have hlen2 : ((s.take t).drop (t - w)).length = min t w := by
    rw [List.length_drop, List.length_take, inf_eq_min]; omega
  have hne : (s.take t).drop (t - w) ≠ [] := by
    rw [← List.length_pos, hlen2]; omega
  refine ⟨?_, hlen2, hne⟩
  unfold rollMeanFeature rollingMeanMin1
  rw [List.getElem?_map, length_shift1, List.getElem?_range ht, Option.map_some']
  simp only [hwin]
  rw [if_neg (by rw [hlen2]; omega)]

/-- C3: the shifted rolling-mean feature at a position `t ≥ 1` equals the
mean of the raw values at positions `t - w` through `t - 1` only (never the
value at `t` itself), and with `min_periods = 1` every partial window at
the start of the series (`1 ≤ t < w`) yields the mean of the `t` existing
prior values rather than null. -/
theorem shifted_rolling_mean_formula (s : List ℚ) (w t : ℕ) (hw : 1 ≤ w)
    (ht1 : 1 ≤ t) (ht : t < s.length) :
    (rollMeanFeature s w)[t]? =
      some (some (((s.take t).drop (t - w)).sum /
        ((((s.take t).drop (t - w)).length : ℚ)))) ∧
    ((s.take t).drop (t - w)).length = min t w ∧
    (s.take t).drop (t - w) ≠ [] ∧
    (∀ j, j < ((s.take t).drop (t - w)).length →
      (t - w) + j < t ∧ ((s.take t).drop (t - w))[j]? = s[(t - w) + j]?) := by
  obtain ⟨hval, hlen, hne⟩ := rollMeanFeature_getElem s w t hw ht1 ht
  refine ⟨hval, hlen, hne, ?_⟩
  intro j hj
  have hjlt : (t - w) + j < t := by
    rw [hlen] at hj
    omega
  refine ⟨hjlt, ?_⟩
  rw [List.getElem?_drop, List.getElem?_take, if_pos hjlt]

/-- Witness for C3 on the concrete series `[1, 2, 3]`, window 2,
position 1. -/
theorem shifted_rolling_mean_formula_witness :
    (1 ≤ 2 ∧ 1 ≤ 1 ∧ 1 < ([1, 2, 3] : List ℚ).length) ∧
    ((rollMeanFeature [1, 2, 3] 2)[1]? =
      some (some (((([1, 2, 3] : List ℚ).take 1).drop (1 - 2)).sum /
        (((((([1, 2, 3] : List ℚ).take 1).drop (1 - 2)).length) : ℚ)))) ∧
    ((([1, 2, 3] : List ℚ).take 1).drop (1 - 2)).length = min 1 2 ∧
    (([1, 2, 3] : List ℚ).take 1).drop (1 - 2) ≠ [] ∧
    (∀ j, j < ((([1, 2, 3] : List ℚ).take 1).drop (1 - 2)).length →
      (1 - 2) + j < 1 ∧
        ((([1, 2, 3] : List ℚ).take 1).drop (1 - 2))[j]? =
          ([1, 2, 3] : List ℚ)[(1 - 2) + j]?)) :=
  ⟨⟨by decide, by decide, by decide⟩,
   shifted_rolling_mean_formula [1, 2, 3] 2 1 (by decide) (by decide) (by decide)⟩

theorem sum_lt_card_mul {c : ℚ} (l : List ℚ) (hne : l ≠ [])
    (h : ∀ x ∈ l, x < c) : l.sum < c * (l.length : ℚ) := by
  induction l with
  | nil => exact absurd rfl hne
  | cons a rest ih =>
    rcases eq_or_ne rest [] with rfl | hrest
    · simp only [List.sum_cons, List.sum_nil, add_zero, List.length_cons,
        List.length_nil, Nat.cast_zero, zero_add, Nat.cast_one, mul_one]
      exact h a (by simp)
    · have ha := h a (by simp)
      have hrec := ih hrest (fun x hx => h x (by simp [hx]))
      simp only [List.sum_cons, List.length_cons]
      push_cast
      rw [mul_add, mul_one]
      linarith

theorem sum_div_length_lt {l : List ℚ} {c : ℚ} (hne : l ≠ [])
    (h : ∀ x ∈ l, x < c) : l.sum / (l.length : ℚ) < c := by
  have hlen : 0 < l.length := List.length_pos.mpr hne
  have hlenQ : (0 : ℚ) < (l.length : ℚ) := by exact_mod_cast hlen
  rw [div_lt_iff₀ hlenQ]
  exact sum_lt_card_mul l hne h

/-- C4: for a strictly increasing series, every non-null shifted
rolling-mean feature value at position `t` is strictly below the raw value
at `t`. -/
theorem rolling_mean_no_leakage (s : List ℚ) (w t : ℕ) (v : ℚ)
    (hmono : List.Pairwise (fun a b : ℚ => a < b) s) (hw : 1 ≤ w)
    (ht : t < s.length)
    (hv : (rollMeanFeature s w)[t]? = some (some v)) : v < s[t] := by
  rcases Nat.eq_zero_or_pos t with rfl | ht1
  · exfalso
    have hwin := shift1_window s w 0 ht
    unfold rollMeanFeature rollingMeanMin1 at hv
    rw [List.getElem?_map, length_shift1, List.getElem?_range ht,
      Option.map_some'] at hv
    simp only [hwin, List.take_zero, List.drop_zero] at hv
    simp at hv
  · obtain ⟨hval, _, hne⟩ := rollMeanFeature_getElem s w t hw ht1 ht
    rw [hval] at hv
    have hv2 : v = ((s.take t).drop (t - w)).sum /
        ((((s.take t).drop (t - w)).length : ℚ)) :=
      (Option.some.inj (Option.some.inj hv)).symm
    subst hv2
    refine sum_div_length_lt hne ?_
    intro x hx
    have hx2 : x ∈ s.take t := List.mem_of_mem_drop hx
    have hpw : List.Pairwise (fun a b : ℚ => a < b) (s.take t ++ s.drop t) := by
      rw [List.take_append_drop]
      exact hmono
    have hcross := (List.pairwise_append.mp hpw).2.2
    have h0 : 0 < (s.drop t).length := by
      rw [List.length_drop]; omega
    have hmem_t : s[t] ∈ s.drop t := by
      have hg : (s.drop t)[0] = s[t + 0] := List.getElem_drop s
      have hm := List.getElem_mem h0
      rw [hg] at hm
      simpa using hm
    exact hcross x hx2 _ hmem_t

/-- Witness for C4 on the strictly increasing series `[1, 2, 3]`, window 2,
position 1: the feature value there is the mean of the single prior value. -/
theorem rolling_mean_no_leakage_witness :
    (((([1, 2, 3] : List ℚ).take 1).drop (1 - 2)).sum /
      (((((([1, 2, 3] : List ℚ).take 1).drop (1 - 2)).length) : ℚ))) <
      ([1, 2, 3] : List ℚ)[1] :=
  rolling_mean_no_leakage [1, 2, 3] 2 1 _ (by decide) (by decide) (by decide)
    (rollMeanFeature_getElem [1, 2, 3] 2 1 (by decide) (by decide) (by decide)).1

/-- A raw input row that defines one target anchor, stated directly from the
spec's row-count wording: parseable timestamp, calendar year inside the
configured window, determinand matching the target under the configured
cast, numeric value. -/
def isTargetAnchor (cfg : FeatureMatrixConfig) (r : RawRow) : Bool :=
  match r.time with
  | none => false
  | some t =>
    decide (cfg.window_start_year ≤ t.year ∧ t.year ≤ cfg.window_end_year) &&
    matchesDet cfg.determinand_cast r.det cfg.target_determinand_id &&
    (toNumericCell r.value).isSome

theorem targetRows_length (cfg : FeatureMatrixConfig) (rows : List RawRow) :
    (targetRows cfg rows).length = (rows.filter (isTargetAnchor cfg)).length := by
  induction rows with
  | nil => rfl
  | cons r rs ih =>
    simp only [targetRows, filterWindow, List.filterMap_cons, List.filter_cons] at ih ⊢
    cases hT : r.time with
    | none => simpa [isTargetAnchor, hT] using ih
    | some t =>
      by_cases hY : cfg.window_start_year ≤ t.year ∧ t.year ≤ cfg.window_end_year
      · by_cases hD : matchesDet cfg.determinand_cast r.det
            cfg.target_determinand_id = true
        · cases hV : toNumericCell r.value with
          | none =>
            simpa [isTargetAnchor, hT, hY, hD, hV, List.filter_cons,
              List.filterMap_cons] using ih
          | some q =>
            simpa [isTargetAnchor, hT, hY, hD, hV, List.filter_cons,
              List.filterMap_cons] using ih
        · simpa [isTargetAnchor, hT, hY, hD, List.filter_cons] using ih
      · simpa [isTargetAnchor, hT, hY] using ih

/-- C5: the built feature matrix has exactly one row per target-analyte
anchor observation in the configured year window (target rows with
parseable timestamps and numeric values), for every configuration — in
particular regardless of the configured predictor list and of duplicate
predictor timestamps. -/
theorem feature_matrix_row_count (cfg : FeatureMatrixConfig) (rows : List RawRow) :
    (buildMatrix cfg rows).length = (rows.filter (isTargetAnchor cfg)).length := by
  unfold buildMatrix
  rw [(List.perm_insertionSort (byKeyLE featKey) _).length_eq, List.length_map]
  unfold buildTargetAnchor
  rw [List.length_map, (List.perm_insertionSort (byKeyLE targetKey) _).length_eq]
  exact targetRows_length cfg rows

/-- Canonical serialization of the feature-matrix configuration with keys in
sorted order, modelling the payload
`json.dumps(asdict(self.config), sort_keys=True, default=str)` of
`_make_config_fingerprint`. -/
def configPayload (cfg : FeatureMatrixConfig) : String :=
  String.intercalate ", " [
    "add_age_days: " ++ toString cfg.add_age_days,
    "add_days_since_last_chl: " ++ toString cfg.add_days_since_last_chl,
    "add_missing_flags: " ++ toString cfg.add_missing_flags,
    "add_seasonality: " ++ toString cfg.add_seasonality,
    "datetime_col: " ++ cfg.datetime_col,
    "determinand_cast: " ++ cfg.determinand_cast,
    "determinand_col: " ++ cfg.determinand_col,
    "feature_version: " ++ cfg.feature_version,
    "lookback_days: " ++ toString cfg.lookback_days,
    "output_dir: " ++ cfg.output_dir,
    "predictor_ids: " ++ String.intercalate ", " (cfg.predictor_ids.map detToString),
    "site_col: " ++ cfg.site_col,
    "snapshot_id: " ++ (match cfg.snapshot_id with | none => "null" | some s => s),
    "target_determinand_id: " ++ detToString cfg.target_determinand_id,
    "threshold_ugL: " ++ toString cfg.threshold_ugL,
    "unit_col: " ++ cfg.unit_col,
    "value_col: " ++ cfg.value_col,
    "window_end_year: " ++ toString cfg.window_end_year,
    "window_start_year: " ++ toString cfg.window_start_year]

/-- The fingerprint `_make_config_fingerprint` is the SHA-256 digest of the canonical
payload; the digest of a deterministic payload is deterministic, and the
hash function itself is outside the model, so the fingerprint is modelled
as the canonical payload. -/
def configFingerprint (cfg : FeatureMatrixConfig) : String := configPayload cfg

/-- C6: building the feature matrix from the same input table and the same
configuration yields identical output frames (rows, values, ordering) and
identical configuration fingerprints. -/
theorem build_determinism (rows1 rows2 : List RawRow)
    (cfg1 cfg2 : FeatureMatrixConfig) (hrows : rows1 = rows2)
    (hcfg : cfg1 = cfg2) :
    buildMatrix cfg1 rows1 = buildMatrix cfg2 rows2 ∧
    configFingerprint cfg1 = configFingerprint cfg2 := by
  subst hrows; subst hcfg; exact ⟨rfl, rfl⟩

/-- Witness for C6 at the default configuration and an empty table. -/
theorem build_determinism_witness :
    ([] : List RawRow) = ([] : List RawRow) ∧
    ({} : FeatureMatrixConfig) = ({} : FeatureMatrixConfig) ∧
    (buildMatrix {} [] = buildMatrix {} [] ∧
      configFingerprint {} = configFingerprint {}) :=
  ⟨rfl, rfl, build_determinism [] [] {} {} rfl rfl⟩

/-- Model of `LabelConfig` (label_builder.py), with the Python field defaults. -/
structure LabelConfig where
  chl_value_col : String := "chl_ugL"
  threshold_ugL : ℚ := 20
  label_col : String := "y"
  strictly_greater : Bool := true
  label_version : String := "LBL_V1"
deriving DecidableEq, Repr

/-- The label assigned to one (numeric-coerced) chlorophyll cell by
`LabelBuilder.build_from_feature_matrix`: `(chl > threshold)` (or `>=` when
`strictly_greater` is disabled) cast to int, with a null comparing false. -/
def labelOf (cfg : LabelConfig) (v : Option ℚ) : Int :=
  if cfg.strictly_greater then
    match v with
    | some x => if x > cfg.threshold_ugL then 1 else 0
    | none => 0
  else
    match v with
    | some x => if x ≥ cfg.threshold_ugL then 1 else 0
    | none => 0

/-- Model of `LabelBuilder.build_from_feature_matrix` restricted to the label
column it computes: numeric-coerce the chlorophyll column, threshold it. -/
def buildFromFeatureMatrix (cfg : LabelConfig) (chl : List Cell) : List Int :=
  chl.map fun c => labelOf cfg (toNumericCell c)

/-- C7: with `strictly_greater` the label is 1 exactly when the value
strictly exceeds the threshold, without it exactly when the value is at
least the threshold; and at threshold 20 in strict mode the values
`[19.9, 20.0, 20.1]` are labelled `[0, 0, 1]`. -/
theorem label_threshold_boundary :
    (∀ (cfg : LabelConfig) (x : ℚ),
      (labelOf cfg (some x) = 1 ↔
        (if cfg.strictly_greater then x > cfg.threshold_ugL
         else x ≥ cfg.threshold_ugL)))
    ∧ buildFromFeatureMatrix {}
        [Cell.num (199/10), Cell.num 20, Cell.num (201/10)] = [0, 0, 1] := by
  constructor
  · intro cfg x
    by_cases hs : cfg.strictly_greater
    · by_cases hx : x > cfg.threshold_ugL <;> simp [labelOf, hs, hx]
    · by_cases hx : x ≥ cfg.threshold_ugL <;> simp [labelOf, hs, hx]
  · norm_num [buildFromFeatureMatrix, labelOf, toNumericCell]

/-- C10: the standalone label builder never leaves a hole in the label
column: it is as long as the input, every null or non-numeric chlorophyll
cell is labelled 0, and every label is 0 or 1. -/
theorem label_builder_total_on_nulls (cfg : LabelConfig) (cells : List Cell) :
    (buildFromFeatureMatrix cfg cells).length = cells.length ∧
    (∀ (i : ℕ) (c : Cell), cells[i]? = some c → toNumericCell c = none →
      (buildFromFeatureMatrix cfg cells)[i]? = some 0) ∧
    (∀ y ∈ buildFromFeatureMatrix cfg cells, y = 0 ∨ y = 1) := by
  refine ⟨by simp [buildFromFeatureMatrix], ?_, ?_⟩
  · intro i c hc hnone
    unfold buildFromFeatureMatrix
    rw [List.getElem?_map, hc, Option.map_some', hnone]
    cases hs : cfg.strictly_greater <;> simp [labelOf, hs]
  · intro y hy
    unfold buildFromFeatureMatrix at hy
    rw [List.mem_map] at hy
    obtain ⟨c, _, rfl⟩ := hy
    cases hv : toNumericCell c with
    | none => cases hs : cfg.strictly_greater <;> simp [labelOf, hs]
    | some x =>
      cases hs : cfg.strictly_greater <;>
        simp only [labelOf, hs, if_true, if_false, Bool.false_eq_true] <;>
        split_ifs <;> simp

/-- Witness for C10 at a single null cell. -/
theorem label_builder_total_on_nulls_witness :
    (([Cell.null] : List Cell)[0]? = some Cell.null) ∧
    toNumericCell Cell.null = none ∧
    (buildFromFeatureMatrix {} [Cell.null])[0]? = some 0 :=
  ⟨rfl, rfl, (label_builder_total_on_nulls {} [Cell.null]).2.1 0 Cell.null rfl rfl⟩

/-- The construction-time configuration errors of `_validate_inputs`. -/
inductive ConfigError where
  | missingColumns
  | badDeterminandCast
  | badWindow
  | badLookback
deriving DecidableEq, Repr

/-- The required input columns of the feature-matrix builder. -/
def requiredCols (cfg : FeatureMatrixConfig) : List String :=
  [cfg.datetime_col, cfg.site_col, cfg.determinand_col, cfg.value_col,
   cfg.unit_col]

/-- Model of `_validate_inputs`, run by the constructor: required columns present,
determinand cast one of the allowed values, window ordered, positive
lookback — checked in this order, first failure reported. -/
def validateInputs (cols : List String) (cfg : FeatureMatrixConfig) :
    Option ConfigError :=
  if (requiredCols cfg).any (fun c => !(cols.contains c)) then
    some .missingColumns
  else if !(cfg.determinand_cast == "str" || cfg.determinand_cast == "int" ||
      cfg.determinand_cast == "none") then
    some .badDeterminandCast
  else if cfg.window_end_year < cfg.window_start_year then
    some .badWindow
  else if cfg.lookback_days ≤ 0 then
    some .badLookback
  else
    none

/-- Model of `FeatureMatrixBuilder.__init__`: store the frame and configuration and
run `_validate_inputs`; on a validation error construction fails and no
build step ever runs (`build` is only reachable from an `ok` builder). -/
def mkFeatureMatrixBuilder (cols : List String) (rows : List RawRow)
    (cfg : FeatureMatrixConfig) :
    Except ConfigError (List RawRow × FeatureMatrixConfig) :=
  match validateInputs cols cfg with
  | some e => .error e
  | none => .ok (rows, cfg)

theorem validateInputs_eq_none_iff (cols : List String)
    (cfg : FeatureMatrixConfig) :
    validateInputs cols cfg = none ↔
      ¬((∃ c ∈ requiredCols cfg, c ∉ cols) ∨
        (cfg.determinand_cast ≠ "str" ∧ cfg.determinand_cast ≠ "int" ∧
          cfg.determinand_cast ≠ "none") ∨
        cfg.window_end_year < cfg.window_start_year ∨
        cfg.lookback_days ≤ 0) := by
  unfold validateInputs
  split_ifs with h1 h2 h3 h4 <;>
    simp_all [List.any_eq_true, List.elem_iff]

/-- C9: constructing the feature-matrix builder fails (and no build step
runs) exactly when a required column is missing, the determinand comparison
mode is invalid, the year window is inverted, or the lookback is not
positive; otherwise construction succeeds with nothing defaulted. -/
theorem builder_validation_iff (cols : List String) (rows : List RawRow)
    (cfg : FeatureMatrixConfig) :
    ((∃ e, mkFeatureMatrixBuilder cols rows cfg = .error e) ↔
      ((∃ c ∈ requiredCols cfg, c ∉ cols) ∨
        (cfg.determinand_cast ≠ "str" ∧ cfg.determinand_cast ≠ "int" ∧
          cfg.determinand_cast ≠ "none") ∨
        cfg.window_end_year < cfg.window_start_year ∨
        cfg.lookback_days ≤ 0))
    ∧ (mkFeatureMatrixBuilder cols rows cfg = .ok (rows, cfg) ↔
        ¬((∃ c ∈ requiredCols cfg, c ∉ cols) ∨
          (cfg.determinand_cast ≠ "str" ∧ cfg.determinand_cast ≠ "int" ∧
            cfg.determinand_cast ≠ "none") ∨
          cfg.window_end_year < cfg.window_start_year ∨
          cfg.lookback_days ≤ 0)) := by
  have hnone := validateInputs_eq_none_iff cols cfg
  unfold mkFeatureMatrixBuilder
  cases hV : validateInputs cols cfg with
  | none =>
    have hnc := hnone.mp hV
    refine ⟨?_, ?_⟩
    · constructor
      · rintro ⟨e, he⟩
        simp at he
      · intro h
        exact absurd h hnc
    · exact ⟨fun _ => hnc, fun _ => rfl⟩
  | some e =>
    have hsome : validateInputs cols cfg ≠ none := by rw [hV]; simp
    have hcond := not_not.mp (fun hc => hsome (hnone.mpr hc))
    refine ⟨⟨fun _ => hcond, fun _ => ⟨e, rfl⟩⟩, ?_⟩
    constructor
    · intro h; simp at h
    · intro h; exact absurd hcond h

/-- Witness for C9: with all required columns present and the default
configuration, construction succeeds. -/
theorem builder_validation_iff_witness :
    mkFeatureMatrixBuilder
      ["phenomenonTime", "samplingPoint.notation", "determinand.notation",
        "result", "unit"] [] {} = .ok ([], {}) :=
  (builder_validation_iff
    ["phenomenonTime", "samplingPoint.notation", "determinand.notation",
      "result", "unit"] [] {}).2.mpr (by decide)

/-- Python `str.strip()` at the code-point level: whitespace removed from
both ends. -/
def trimChars (cs : List Char) : List Char :=
  ((cs.dropWhile Char.isWhitespace).reverse.dropWhile Char.isWhitespace).reverse

/-- The identifier normalization `CleanDatasetBuilder.filter_determinands`
applies to both the determinand column and the configured allowlist:
`str(x).strip().lstrip("0")`, with an all-zero (or empty) identifier
collapsing to "0". -/
def normDetStr (s : String) : String :=
  let t := (trimChars s.toList).dropWhile (fun c => c == '0')
  if t.isEmpty then "0" else String.mk t

/-- Model of `CleanDatasetBuilder.filter_determinands`: keep rows whose normalized
determinand identifier lies in the normalized allowlist. -/
def filterDeterminands (determinand_ids : List DetId) (rows : List RawRow) :
    List RawRow :=
  let wanted := determinand_ids.map fun x => normDetStr (detToString x)
  rows.filter fun r => wanted.contains (normDetStr (detToString r.det))

/-- Two target identifiers that the configured cast cannot tell apart
extract the same predictor series. -/
theorem extract_congr (cfg : FeatureMatrixConfig) (p1 p2 : DetId)
    (rows : List RawRow)
    (h : ∀ d, matchesDet cfg.determinand_cast d p1 =
      matchesDet cfg.determinand_cast d p2) :
    extractPredictorSeries cfg p1 rows = extractPredictorSeries cfg p2 rows := by
  show sortPredObs (((filterWindow cfg rows).filter fun r =>
      matchesDet cfg.determinand_cast r.det p1).filterMap fun r =>
      (toNumericCell r.value).map fun v => PredObs.mk r.site r.t v) =
    sortPredObs (((filterWindow cfg rows).filter fun r =>
      matchesDet cfg.determinand_cast r.det p2).filterMap fun r =>
      (toNumericCell r.value).map fun v => PredObs.mk r.site r.t v)
  rw [List.filter_congr (fun r _ => h r.det)]

/-- C8 counterexample: under the string comparison mode (`determinand_cast
= "str"`, the default) the identifiers "061" and "61" extract different
series from a table that stores the identifier as "61": `str("061")` is
"061", which never equals `str("61")`. -/
theorem det_norm_str_mode_counterexample :
    ¬ (extractPredictorSeries { determinand_cast := "str" } (.str "061")
         [⟨"A", some ⟨2010, 0⟩, .str "61", .num 1, "u"⟩] =
       extractPredictorSeries { determinand_cast := "str" } (.str "61")
         [⟨"A", some ⟨2010, 0⟩, .str "61", .num 1, "u"⟩]) := by decide

/-- C8 amended: under the integer comparison mode the identifiers "061"
(string), "61" (string) and 61 (integer) all extract the same predictor
series, and the clean layer's zero-stripping determinand filter treats the
three identically in its allowlist; under the string and as-is comparison
modes of the feature-matrix builder they need not resolve alike (see the
counterexample). -/
theorem det_norm_equivalence_amended (cfg : FeatureMatrixConfig)
    (rows : List RawRow) (hcast : cfg.determinand_cast = "int") :
    (extractPredictorSeries cfg (.str "061") rows =
       extractPredictorSeries cfg (.str "61") rows ∧
     extractPredictorSeries cfg (.str "61") rows =
       extractPredictorSeries cfg (.int 61) rows) ∧
    (filterDeterminands [.str "061"] rows = filterDeterminands [.str "61"] rows ∧
     filterDeterminands [.str "61"] rows = filterDeterminands [.int 61] rows) := by
  have h1 : toNumericDet (.str "061") = some 61 := by decide
  have h2 : toNumericDet (.str "61") = some 61 := by decide
  have h3 : toNumericDet (.int 61) = some 61 := by decide
  have w1 : ([DetId.str "061"].map fun x => normDetStr (detToString x)) = ["61"] := by
    decide
  have w2 : ([DetId.str "61"].map fun x => normDetStr (detToString x)) = ["61"] := by
    decide
  have w3 : ([DetId.int 61].map fun x => normDetStr (detToString x)) = ["61"] := by
    decide
  have hne : ¬ (("int" : String) = "str") := by decide
  have heq : (("int" : String) = "int") := rfl
  refine ⟨⟨?_, ?_⟩, ?_, ?_⟩
  · apply extract_congr
    intro d
    rw [hcast]
    unfold matchesDet
    rw [if_neg hne, if_neg hne, if_pos heq, if_pos heq, h1, h2]
  · apply extract_congr
    intro d
    rw [hcast]
    unfold matchesDet
    rw [if_neg hne, if_neg hne, if_pos heq, if_pos heq, h2, h3]
  · unfold filterDeterminands
    rw [w1, w2]
  · unfold filterDeterminands
    rw [w2, w3]

/-- Witness for the amended C8 at the integer-cast configuration and the
empty table. -/
theorem det_norm_equivalence_amended_witness :
    ({ determinand_cast := "int" } : FeatureMatrixConfig).determinand_cast = "int" ∧
    ((extractPredictorSeries { determinand_cast := "int" } (.str "061") [] =
        extractPredictorSeries { determinand_cast := "int" } (.str "61") [] ∧
      extractPredictorSeries { determinand_cast := "int" } (.str "61") [] =
        extractPredictorSeries { determinand_cast := "int" } (.int 61) []) ∧
     (filterDeterminands [.str "061"] [] = filterDeterminands [.str "61"] [] ∧
      filterDeterminands [.str "61"] [] = filterDeterminands [.int 61] [])) :=
  ⟨rfl, det_norm_equivalence_amended { determinand_cast := "int" } [] rfl⟩

/-- Nondecreasing (monotonically increasing, duplicates allowed) check that
pandas applies to a merge key column. -/
def secsNondecreasing : List Int → Bool
  | [] => true
  | [_] => true
  | a :: b :: t => decide (a ≤ b) && secsNondecreasing (b :: t)

/-- The ValueError `pd.merge_asof` raises when a frame's `on` key is not
globally monotonic. -/
inductive MergeError where
  | leftKeysNotSorted
  | rightKeysNotSorted
deriving DecidableEq, Repr

/-- Validation `pd.merge_asof` performs before matching anything: even with
`by=site_col`, the `on` (time) column of each frame must be globally
monotonically increasing, left frame checked first.  `_merge_asof_backward`
hands it frames sorted by (site, time), whose global time column is not
monotonic when per-site time ranges interleave. -/
def mergeAsofValidate (anchors : List AnchorRow) (preds : List PredObs) :
    Option MergeError :=
  if !(secsNondecreasing (anchors.map fun a => a.t.sec)) then
    some .leftKeysNotSorted
  else if !(secsNondecreasing ((sortPredObs preds).map fun p => p.t.sec)) then
    some .rightKeysNotSorted
  else none

/-- First `pd.merge_asof` validation failure over the configured
predictors, in the order of the merge loop of `build`. -/
def firstMergeError (cfg : FeatureMatrixConfig) (rows : List RawRow)
    (anchors : List AnchorRow) : List DetId → Option MergeError
  | [] => none
  | pid :: rest =>
    match mergeAsofValidate anchors (extractPredictorSeries cfg pid rows) with
    | some e => some e
    | none => firstMergeError cfg rows anchors rest

/-- Error-aware model of `FeatureMatrixBuilder.build`: every `pd.merge_asof`
call of the predictor loop first validates both on-keys (so with no
configured predictors no validation runs); the first violation raises and
the build aborts with no output, otherwise the build completes as
`buildMatrix`. -/
def buildMatrixE (cfg : FeatureMatrixConfig) (rows : List RawRow) :
    Except MergeError (List FeatRow) :=
  match firstMergeError cfg rows (buildTargetAnchor cfg rows)
      cfg.predictor_ids with
  | some e => .error e
  | none => .ok (buildMatrix cfg rows)

/-- The two-site input table on which `build()` crashes: the two target
anchors (site A at 100 s, site B at 50 s) interleave in time, and one
predictor observation makes the merge loop run. -/
def multisiteRows : List RawRow :=
  [⟨"A", some ⟨2010, 100⟩, .str "7887", .num 10, "ug/L"⟩,
   ⟨"B", some ⟨2010, 50⟩, .str "7887", .num 30, "ug/L"⟩,
   ⟨"A", some ⟨2010, 10⟩, .str "348", .num 1, "mg/L"⟩]

/-- The configuration used with `multisiteRows`: string cast, target 7887,
one predictor 348 (as in the repository's own tests). -/
def multisiteCfg : FeatureMatrixConfig :=
  { determinand_cast := "str", target_determinand_id := .str "7887",
    predictor_ids := [.str "348"] }

/-- C5 (code-bug evidence): on a valid two-site table whose per-site time
ranges interleave, the (site, time) sort leaves the global time column
[100, 50] non-monotonic, the first `pd.merge_asof` call fails pandas'
left-key validation, and `build()` raises instead of producing the
two-anchor matrix the row-count invariant promises. -/
theorem feature_matrix_multisite_crash :
    buildMatrixE multisiteCfg multisiteRows = .error .leftKeysNotSorted ∧
    (multisiteRows.filter (isTargetAnchor multisiteCfg)).length = 2 :=
  ⟨by rfl, by decide⟩

/-- Whenever `build()` completes without raising, the row-count invariant
does hold: the matrix has one row per target anchor. -/
theorem buildMatrixE_ok_length (cfg : FeatureMatrixConfig)
    (rows : List RawRow) (m : List FeatRow)
    (h : buildMatrixE cfg rows = .ok m) :
    m.length = (rows.filter (isTargetAnchor cfg)).length := by
  unfold buildMatrixE at h
  cases hE : firstMergeError cfg rows (buildTargetAnchor cfg rows)
      cfg.predictor_ids with
  | some e => rw [hE] at h; cases h
  | none =>
    rw [hE] at h
    have hm := Except.ok.inj h
    rw [← hm]
    exact feature_matrix_row_count cfg rows
